import Mathlib

/-
Shallow embedding of the scheduling subsystem of GoodMorningBot (bot.py).

The file translates, as pure Lean functions, the parts of bot.py that the
verified properties need:

  * the quote content filter (BLACKLISTED_REGEXES and
    contains_no_blacklisted_regexes) and the fetch loop get_random_quote;
  * the retry loops of greet and of the scheduled callback built by
    get_callback;
  * the /schedule conversation steps schedule_interval, schedule_first and
    schedule_last, together with the telegram Filters.regex gates that decide
    whether each handler runs at all;
  * the registry operations: the /list filter of get_scheduled_messages and
    the reply based cancellation handle_schedule_cancel;
  * the /list countdown callback edit_time_left.

External collaborators are modelled as explicit parameters: the HTTP and JSON
layer as an oracle of fetch outcomes, the wall clock as a DateTime argument,
and the telegram transport by the text the handlers receive.  Python
exceptions that escape a handler are modelled with Except; the unbounded
while loops are modelled either fuel indexed (get_random_quote) or as an
iterated step function (the greet loop).  Timestamps carry second
granularity, as does every timestamp the program parses; comparisons of
aware datetimes in the same fixed timezone are field lexicographic, which the
numeric encoding DateTime.code reproduces for in-range field values.
-/

/-! ### Character and string utilities (Python `re` and `str` behaviour) -/

/-- Python word character for ASCII text: `[A-Za-z0-9_]`.  Used by the
word-boundary `\b` of the blacklisted patterns. -/
def isWordChar (c : Char) : Bool :=
  c.isAlphanum || c == '_'

/-- There is a `\b` boundary on the left of the current position, given the
previous character (`none` at the start of the string), for a word character
at the current position. -/
def boundaryLeft : Option Char → Bool
  | none => true
  | some c => !isWordChar c

/-- There is a `\b` boundary on the right of a word character, given the rest
of the string. -/
def boundaryRight : List Char → Bool
  | [] => true
  | c :: _ => !isWordChar c

/-- Search for the case-sensitive pattern `\bI\b` (first entry of
BLACKLISTED_REGEXES), scanning left to right with the previous character as
boundary context.  Mirrors `re.search(r"\bI\b", quote, 0) is not None`. -/
def searchWordI : Option Char → List Char → Bool
  | _, [] => false
  | prev, c :: rest =>
    (boundaryLeft prev && c == 'I' && boundaryRight rest) || searchWordI (some c) rest

/-- Search for the case-insensitive pattern `\bm[ey]\b` (second entry of
BLACKLISTED_REGEXES).  Mirrors
`re.search(r"\bm[ey]\b", quote, re.IGNORECASE) is not None`. -/
def searchMeMy : Option Char → List Char → Bool
  | _, [] => false
  | prev, c :: rest =>
    (boundaryLeft prev && c.toLower == 'm' &&
      (match rest with
       | c2 :: rest2 => (c2.toLower == 'e' || c2.toLower == 'y') && boundaryRight rest2
       | [] => false)) || searchMeMy (some c) rest

/-- bot.py `contains_no_blacklisted_regexes`: true when none of the
blacklisted patterns occurs in the quote. -/
def contains_no_blacklisted_regexes (quote : String) : Bool :=
  !(searchWordI none quote.data) && !(searchMeMy none quote.data)

/-- Python `\s` for ASCII text: space, tab, newline, carriage return,
vertical tab, form feed. -/
def isPySpace (c : Char) : Bool :=
  c == ' ' || c == '\t' || c == '\n' || c == '\r' || c == '\x0b' || c == '\x0c'

/-- Numeric value of a decimal digit character. -/
def digitVal (c : Char) : Nat :=
  c.toNat - 48

/-- Value of a string of decimal digits, as computed by Python `int` on a
digit string. -/
def natOfDigits (cs : List Char) : Nat :=
  cs.foldl (fun n c => n * 10 + digitVal c) 0

/-- Python `s.startswith(pre)`. -/
def pyStartsWith (s pre : String) : Bool :=
  pre.data.isPrefixOf s.data

/-- Python `s.lower()` for ASCII text: lower-case every character. -/
def pyLower (s : String) : String :=
  String.mk (s.data.map Char.toLower)

/-! ### Timestamps

The program parses and compares timezone-aware datetimes in the single fixed
offset IST.  All parsed values have second granularity, so a record of six
Nat fields is a faithful carrier.  Python compares two aware datetimes of the
same offset lexicographically by field; `DateTime.code` is a strictly
monotone numeric encoding of that order for in-range field values. -/

structure DateTime where
  year : Nat
  month : Nat
  day : Nat
  hour : Nat
  minute : Nat
  second : Nat
deriving DecidableEq, Repr

/-- Strictly monotone (for in-range fields) numeric encoding of the
lexicographic datetime order used by Python's `<` on same-offset aware
datetimes. -/
def DateTime.code (d : DateTime) : Nat :=
  ((((d.year * 13 + d.month) * 32 + d.day) * 24 + d.hour) * 60 + d.minute) * 60 + d.second

/-- Gregorian leap year rule, as validated by `datetime`. -/
def isLeapYear (y : Nat) : Bool :=
  y % 4 == 0 && (y % 100 != 0 || y % 400 == 0)

/-- Number of days of a month, as validated by the `datetime` constructor. -/
def daysInMonth (y m : Nat) : Nat :=
  if m == 2 then (if isLeapYear y then 29 else 28)
  else if m == 4 || m == 6 || m == 9 || m == 11 then 30
  else 31

/-- `datetime.strptime(text, "%Y-%m-%d %H:%M:%S")`: succeeds exactly on a
19-character `YYYY-MM-DD HH:MM:SS` string whose fields are in `datetime`'s
ranges (year at least 1, month 1..12, day 1..daysInMonth, hour at most 23,
minute and second at most 59); any leftover characters raise ValueError
(modelled as `none`).  The conversation gates below guarantee the first 19
characters already have this shape whenever the Python handler reaches
strptime, so exact-shape parsing is faithful on every reachable input. -/
def parseDateTime (s : String) : Option DateTime :=
  match s.data with
  | [y1, y2, y3, y4, g1, m1, m2, g2, d1, d2, sp, h1, h2, c1, n1, n2, c2, s1, s2] =>
    if y1.isDigit && y2.isDigit && y3.isDigit && y4.isDigit && g1 == '-' &&
       m1.isDigit && m2.isDigit && g2 == '-' && d1.isDigit && d2.isDigit &&
       sp == ' ' && h1.isDigit && h2.isDigit && c1 == ':' && n1.isDigit &&
       n2.isDigit && c2 == ':' && s1.isDigit && s2.isDigit then
      let y := digitVal y1 * 1000 + digitVal y2 * 100 + digitVal y3 * 10 + digitVal y4
      let mo := digitVal m1 * 10 + digitVal m2
      let dd := digitVal d1 * 10 + digitVal d2
      let hh := digitVal h1 * 10 + digitVal h2
      let mi := digitVal n1 * 10 + digitVal n2
      let ss := digitVal s1 * 10 + digitVal s2
      if 1 ≤ y ∧ 1 ≤ mo ∧ mo ≤ 12 ∧ 1 ≤ dd ∧ dd ≤ daysInMonth y mo ∧
         hh ≤ 23 ∧ mi ≤ 59 ∧ ss ≤ 59 then
        some ⟨y, mo, dd, hh, mi, ss⟩
      else none
    else none
  | _ => none

/-- The `\d{4}-\d{2}-\d{2} \d{2}:\d{2}:\d{2}` alternative of the FIRST/LAST
conversation gates: an unanchored-at-the-end `re.search` anchored by `^`, so
it only constrains the first 19 characters. -/
def tsPrefixShape : List Char → Bool
  | y1 :: y2 :: y3 :: y4 :: '-' :: m1 :: m2 :: '-' :: d1 :: d2 :: ' ' ::
      h1 :: h2 :: ':' :: n1 :: n2 :: ':' :: s1 :: s2 :: _ =>
    y1.isDigit && y2.isDigit && y3.isDigit && y4.isDigit && m1.isDigit &&
    m2.isDigit && d1.isDigit && d2.isDigit && h1.isDigit && h2.isDigit &&
    n1.isDigit && n2.isDigit && s1.isDigit && s2.isDigit
  | _ => false

/-- Gate of the FIRST state:
`Filters.regex(r"^((now)|(\d{4}-\d{2}-\d{2} \d{2}:\d{2}:\d{2}))", IGNORECASE)`.
When this is false the handler never runs and the conversation silently stays
in the same state. -/
def firstGate (s : String) : Bool :=
  "now".data.isPrefixOf (pyLower s).data || tsPrefixShape s.data

/-- Gate of the LAST state:
`Filters.regex(r"^((never)|(\d{4}-\d{2}-\d{2} \d{2}:\d{2}:\d{2}))", IGNORECASE)`. -/
def lastGate (s : String) : Bool :=
  "never".data.isPrefixOf (pyLower s).data || tsPrefixShape s.data

/-! ### Conversation collector: interval step -/

/-- Gate of the INTERVAL state: `Filters.regex("^[0-9]+$")`, i.e.
`re.search` of an anchored digit run; `$` also matches just before one final
newline. -/
def intervalGate (s : String) : Bool :=
  let ds := s.data.takeWhile Char.isDigit
  let rest := s.data.drop ds.length
  !ds.isEmpty && (rest.isEmpty || rest == ['\n'])

/-- Outcome of one input in the INTERVAL state. -/
inductive IntervalResult
  /-- The gate did not match: the handler never runs, nothing is stored, no
  reply is sent, the conversation remains in INTERVAL. -/
  | ignored
  /-- `schedule_interval` ran: `int(update.message.text)` is stored in
  `user_data[INTERVAL]`, the start prompt is sent and the conversation moves
  to FIRST. -/
  | accept (n : Nat)
deriving DecidableEq, Repr

/-- Combined gate plus `schedule_interval` behaviour of the INTERVAL state. -/
def awaitingInterval (s : String) : IntervalResult :=
  if intervalGate s then .accept (natOfDigits (s.data.takeWhile Char.isDigit))
  else .ignored

/-! ### Conversation collector: start step -/

/-- Outcome of one input in the FIRST state. -/
inductive StartResult
  /-- The gate did not match: handler not invoked, conversation stays in
  FIRST. -/
  | ignored
  /-- Fell through to `context.user_data[FIRST] = date_object`, sent the end
  date prompt and returned LAST.  `stored = none` is the Immediate sentinel. -/
  | advance (stored : Option DateTime)
  /-- Sent the time-travel reply and returned FIRST. -/
  | stayTimeTravelReply
  /-- Parsed a date that is not in the past, but hit the misindented
  `return FIRST` of bot.py line 479: no reply, nothing stored, stays FIRST. -/
  | stayWithoutReply
  /-- strptime raised ValueError: sent the format reply and returned FIRST. -/
  | stayFormatReply
deriving DecidableEq, Repr

/-- The value stored into `user_data[FIRST]` by an outcome, when one is
stored. -/
def StartResult.storedStart : StartResult → Option (Option DateTime)
  | .advance v => some v
  | _ => none

/-- bot.py `schedule_first`, invoked with the current instant and the message
text.  Faithful to the source's control flow, including the misindented
`return FIRST` that follows the `if date_object < datetime.now(IST)` block:
every successfully parsed timestamp returns FIRST, so only the literal
`"now"` ever reaches the storing fall-through. -/
def schedule_first (now : DateTime) (text : String) : StartResult :=
  if pyLower text == "now" then
    .advance none
  else
    match parseDateTime text with
    | some d => if d.code < now.code then .stayTimeTravelReply else .stayWithoutReply
    | none => .stayFormatReply

/-- Combined gate plus `schedule_first` behaviour of the FIRST state. -/
def awaitingStart (now : DateTime) (text : String) : StartResult :=
  if firstGate text then schedule_first now text else .ignored

/-! ### Conversation collector: end step -/

/-- Outcome of one input in the LAST state. -/
inductive EndResult
  /-- The gate did not match: handler not invoked, conversation stays in
  LAST. -/
  | ignored
  /-- Fell through to `context.user_data[LAST] = date_object`, sent the
  summary, registered the job via `run_repeating` and ended the
  conversation.  `stored = none` is the Indefinite sentinel. -/
  | finish (stored : Option DateTime)
  /-- Start was Immediate and the parsed end is before now: time-travel
  reply, stays LAST. -/
  | stayTimeTravelReply
  /-- Explicit start and the parsed end is before it: reply, stays LAST. -/
  | stayBeforeStartReply
  /-- strptime raised ValueError: format reply, stays LAST. -/
  | stayFormatReply
deriving DecidableEq, Repr

/-- bot.py `schedule_last`, invoked with the current instant, the stored
`user_data[FIRST]` (`none` = Immediate) and the message text. -/
def schedule_last (now : DateTime) (first : Option DateTime) (text : String) : EndResult :=
  if pyLower text == "never" then
    .finish none
  else
    match parseDateTime text with
    | some d =>
      match first with
      | none => if d.code < now.code then .stayTimeTravelReply else .finish (some d)
      | some f => if d.code < f.code then .stayBeforeStartReply else .finish (some d)
    | none => .stayFormatReply

/-- Combined gate plus `schedule_last` behaviour of the LAST state. -/
def awaitingEnd (now : DateTime) (first : Option DateTime) (text : String) : EndResult :=
  if lastGate text then schedule_last now first text else .ignored

/-- The effective start of a job spec: the explicit start when present, else
the current instant — exactly the `FIRST` entry that `schedule_last` puts
into the job context (`user_data[FIRST] if ... is not None else
datetime.now(IST)`). -/
def effectiveStart (now : DateTime) (first : Option DateTime) : DateTime :=
  first.getD now

/-! ### Job registry -/

/-- A job held by the job queue.  The program identifies jobs purely by their
name string, which is all the listing and cancellation paths consult. -/
structure Job where
  name : String
deriving DecidableEq, Repr

/-- Name given to a registered greeting job:
`f"{update.effective_chat.id}_{time.time()}"`; the timestamp part is kept
abstract as a string. -/
def mkJobName (chat : Int) (t : String) : String :=
  toString chat ++ "_" ++ t

/-- The job that registering a spec in chat `chat` at timestamp `t` creates. -/
def registeredJob (chat : Int) (t : String) : Job :=
  ⟨mkJobName chat t⟩

/-- The job selection of bot.py `get_scheduled_messages`:
`[job for job in job_queue.jobs() if job.name.startswith(str(chat_id))]`. -/
def get_scheduled_messages (chat : Int) (reg : List Job) : List Job :=
  reg.filter (fun j => pyStartsWith j.name (toString chat))

/-- `job_queue.get_jobs_by_name(name)`: the jobs whose name equals `name`. -/
def get_jobs_by_name (reg : List Job) (name : String) : List Job :=
  reg.filter (fun j => j.name == name)

/-- `re.search("^Schedule ID: ([^\s]+)\s", text)` and its group 1: the text
must begin with the literal `Schedule ID: `, followed by at least one
non-whitespace character and then one whitespace character. -/
def parseScheduleId (s : String) : Option String :=
  let pre := "Schedule ID: ".data
  if pre.isPrefixOf s.data then
    let rest := s.data.drop pre.length
    let tok := rest.takeWhile (fun c => !isPySpace c)
    let rest2 := rest.drop tok.length
    if tok.isEmpty || rest2.isEmpty then none else some (String.mk tok)
  else none

/-- A Python exception escaping the handler (caught and logged by the
telegram dispatcher, so the process survives, but the handler aborts). -/
inductive PyError
  /-- `NoneType.group` when the reply-text regex found no match. -/
  | attributeError
  /-- `[0]` on the empty result of `get_jobs_by_name`. -/
  | indexError
deriving DecidableEq, Repr

/-- bot.py `handle_schedule_cancel`, applied to the registry and the text of
the replied-to message.  On success the first job carrying the parsed name is
removed (`schedule_removal`) and the new registry is returned; the subsequent
marking of the countdown ticket is modelled separately by `markCancelled`
below.  An exception aborts the handler before any registry mutation. -/
def handle_schedule_cancel (reg : List Job) (replyText : String) : Except PyError (List Job) :=
  match parseScheduleId replyText with
  | none => .error .attributeError
  | some jobName =>
    match get_jobs_by_name reg jobName with
    | [] => .error .indexError
    | j :: _ => .ok (reg.erase j)

/-! ### Retry loops of greet and of the scheduled callback

Both loops run `while not greeting_made and retries <= 3`, attempting the
quote fetch plus render sequence each iteration; the attempt outcome is an
oracle indexed by the iteration number.  `greet` (interactive path) never
touches `retries` in its except branch; `schedule_callback` (scheduled path,
built by `get_callback`) does `retries += 1`. -/

structure GreetState where
  greeting_made : Bool
  retries : Nat
deriving DecidableEq, Repr

/-- Loop guard `not greeting_made and retries <= 3`, shared by both loops. -/
def greetGuard (s : GreetState) : Bool :=
  !s.greeting_made && decide (s.retries ≤ 3)

/-- One loop body of `greet`: on success set `greeting_made`; on failure
print and retry — `retries` is left unchanged. -/
def greetBody (success : Bool) (s : GreetState) : GreetState :=
  if success then { s with greeting_made := true } else s

/-- State of the `greet` loop after `n` guarded iterations from the initial
`greeting_made = False, retries = 0`. -/
def greetIter (oracle : Nat → Bool) : Nat → GreetState
  | 0 => ⟨false, 0⟩
  | n + 1 =>
    let s := greetIter oracle n
    if greetGuard s then greetBody (oracle n) s else s

/-- One loop body of `schedule_callback`: on failure `retries += 1`. -/
def scheduleBody (success : Bool) (s : GreetState) : GreetState :=
  if success then { s with greeting_made := true } else { s with retries := s.retries + 1 }

/-- State of the `schedule_callback` loop after `n` guarded iterations. -/
def scheduleIter (oracle : Nat → Bool) : Nat → GreetState
  | 0 => ⟨false, 0⟩
  | n + 1 =>
    let s := scheduleIter oracle n
    if greetGuard s then scheduleBody (oracle n) s else s

/-! ### Quote retrieval loop -/

/-- Outcome of one iteration's HTTP fetch plus JSON decode, supplied by an
oracle indexed by the attempt number. -/
inductive FetchResult
  /-- `response.status_code != 200`: print and `continue`. -/
  | httpError (status : Nat)
  /-- `json.loads` raised `JSONDecodeError`: print and `continue`. -/
  | jsonError
  /-- Decoded successfully with the given `quoteText`. -/
  | ok (quoteText : String)

/-- Result of one iteration of the `while quote == ""` loop of
`get_random_quote`: `some q` exactly when this iteration makes the loop exit
returning `q`, i.e. when the fetch decoded, the quote passed the content
filter and the quote is nonempty (a passing empty quote leaves
`quote == ""`, so the loop continues). -/
def loopBodyResult : FetchResult → Option String
  | .httpError _ => none
  | .jsonError => none
  | .ok t => if contains_no_blacklisted_regexes t && t != "" then some t else none

/-- bot.py `get_random_quote`, fuel indexed: `get_random_quote oracle fuel i`
runs up to `fuel` iterations starting at attempt index `i` and returns `none`
when the fuel is exhausted without the loop exiting.  The Python loop
terminates on the oracle iff some fuel makes this return `some`. -/
def get_random_quote (oracle : Nat → FetchResult) : Nat → Nat → Option String
  | 0, _ => none
  | fuel + 1, i =>
    match loopBodyResult (oracle i) with
    | some t => some t
    | none => get_random_quote oracle fuel (i + 1)

/-- Attempt `j` of the oracle would make the fetch loop exit. -/
def attemptSucceeds (oracle : Nat → FetchResult) (j : Nat) : Bool :=
  (loopBodyResult (oracle j)).isSome

/-! ### Countdown ticket -/

/-- Per-listing countdown state: the `context` dict of the `edit_time_left`
repeating job (`time_left`, initially 14; set to `None` by
`handle_schedule_cancel`) together with whether the job has called
`schedule_removal` (after which the job queue never invokes it again). -/
structure Ticket where
  time_left : Option Int
  removed : Bool
deriving DecidableEq, Repr

/-- A message rewrite performed by `edit_time_left`. -/
inductive Edit
  /-- Rewrite with the countdown footer showing `n` remaining seconds. -/
  | countdown (n : Int)
  /-- Rewrite with no footer (the frozen final text). -/
  | frozen
  /-- Rewrite with the `This schedule has been cancelled.` footer. -/
  | cancelled
deriving DecidableEq, Repr

/-- bot.py `edit_time_left`: one invocation of the per-second callback,
returning the new ticket state and the message rewrite it performed. -/
def edit_time_left (t : Ticket) : Ticket × Edit :=
  match t.time_left with
  | none => ({ t with removed := true }, .cancelled)
  | some tl =>
    let e := if tl = 0 then Edit.frozen else Edit.countdown tl
    let tl2 := tl - 1
    if tl2 = -1 then ({ t with removed := true }, e)
    else ({ t with time_left := some tl2 }, e)

/-- `n` seconds of the repeating job: the queue invokes `edit_time_left` once
per second while the job has not removed itself.  Returns the final ticket
state and the list of rewrites performed. -/
def runTicket : Nat → Ticket → Ticket × List Edit
  | 0, t => (t, [])
  | n + 1, t =>
    if t.removed then (t, [])
    else
      let p := edit_time_left t
      let q := runTicket n p.1
      (q.1, p.2 :: q.2)

/-- The marking done by `handle_schedule_cancel`:
`for job in job_queue.get_jobs_by_name(str(message.message_id)): job.context["time_left"] = None`.
When the countdown job has already removed itself it is no longer found and
nothing changes. -/
def markCancelled (t : Ticket) : Ticket :=
  if t.removed then t else { t with time_left := none }

/-- The rewrites of an uncancelled countdown started at `time_left = 14`:
footers counting strictly down from 14 to 1, then the frozen no-footer
rewrite. -/
def fullCountdownEdits : List Edit :=
  [Edit.countdown 14, Edit.countdown 13, Edit.countdown 12, Edit.countdown 11,
   Edit.countdown 10, Edit.countdown 9, Edit.countdown 8, Edit.countdown 7,
   Edit.countdown 6, Edit.countdown 5, Edit.countdown 4, Edit.countdown 3,
   Edit.countdown 2, Edit.countdown 1, Edit.frozen]

/-! ### Helper lemmas -/

/-- A list is a `isPrefixOf` prefix of itself followed by anything. -/
theorem isPrefixOf_append_self : ∀ (l r : List Char), l.isPrefixOf (l ++ r) = true := by
  intro l r
  induction l with
  | nil => cases r <;> rfl
  | cons c cs ih => simp [List.isPrefixOf, ih]

/-- A countdown job that has called `schedule_removal` is never invoked
again. -/
theorem runTicket_removed : ∀ (m : Nat) (t : Ticket), t.removed = true →
    runTicket m t = (t, []) := by
  intro m t h
  cases m with
  | zero => rfl
  | succ m => simp [runTicket, h]

/-- Once `time_left` has been set to `None` on a live countdown job, any
positive number of further seconds produces exactly one cancelled rewrite and
retires the job. -/
theorem runTicket_cancelFlag : ∀ m : Nat, 1 ≤ m →
    runTicket m (Ticket.mk none false) = (Ticket.mk none true, [Edit.cancelled]) := by
  intro m hm
  obtain ⟨m2, rfl⟩ : ∃ m2, m = m2 + 1 := ⟨m - 1, by omega⟩
  simp [runTicket, edit_time_left, runTicket_removed]

/-- If every attempt of the oracle fails the filter or the fetch, the
`get_random_quote` loop makes no progress for any amount of fuel. -/
theorem grq_exhausts (oracle : Nat → FetchResult)
    (hall : ∀ j, loopBodyResult (oracle j) = none) :
    ∀ (fuel i : Nat), get_random_quote oracle fuel i = none := by
  intro fuel
  induction fuel with
  | zero => intro i; rfl
  | succ fuel ih => intro i; simp [get_random_quote, hall i, ih]

/-- A loop iteration exits the fetch loop only with a quote that passed the
content filter. -/
theorem loopBodyResult_passes (r : FetchResult) (t : String)
    (h : loopBodyResult r = some t) : contains_no_blacklisted_regexes t = true := by
  cases r with
  | httpError s => simp [loopBodyResult] at h
  | jsonError => simp [loopBodyResult] at h
  | ok u =>
    simp only [loopBodyResult] at h
    split at h
    · rename_i hc
      rw [Bool.and_eq_true] at hc
      injection h with h2
      subst h2
      exact hc.1
    · cases h

/-- If the fetch loop returned within some fuel, some attempt at or after the
start index succeeded. -/
theorem grq_some_attempt (oracle : Nat → FetchResult) :
    ∀ (fuel i : Nat), (get_random_quote oracle fuel i).isSome = true →
      ∃ j, i ≤ j ∧ attemptSucceeds oracle j = true := by
  intro fuel
  induction fuel with
  | zero => intro i h; simp [get_random_quote] at h
  | succ fuel ih =>
    intro i h
    unfold get_random_quote at h
    cases hA : loopBodyResult (oracle i) with
    | some t => exact ⟨i, Nat.le_refl i, by simp [attemptSucceeds, hA]⟩
    | none =>
      simp only [hA] at h
      obtain ⟨j, hj, hs⟩ := ih (i + 1) h
      exact ⟨j, by omega, hs⟩

/-- If some attempt within the fuel budget succeeds, the fetch loop returns. -/
theorem grq_attempt_reached (oracle : Nat → FetchResult) :
    ∀ (fuel i j : Nat), i ≤ j → j < i + fuel → attemptSucceeds oracle j = true →
      (get_random_quote oracle fuel i).isSome = true := by
  intro fuel
  induction fuel with
  | zero => intro i j h1 h2 h3; omega
  | succ fuel ih =>
    intro i j h1 h2 h3
    cases hA : loopBodyResult (oracle i) with
    | some t => simp [get_random_quote, hA]
    | none =>
      have hij : i ≠ j := by
        intro he
        subst he
        simp [attemptSucceeds, hA] at h3
      simp only [get_random_quote, hA]
      exact ih (i + 1) j (by omega) (by omega) h3

/-! ### Claim C1 -/

/-- Claim C1 (code bug): in the AwaitingStart state a parsed timestamp
strictly after the current instant is supposed to be stored and to advance
the conversation to AwaitingEnd; because of the misindented `return FIRST` at
bot.py line 479 this never happens.  The theorem records: (1) no input
whatsoever makes `schedule_first` store an explicit date — the only stored
value is the Immediate sentinel of the `"now"` branch; (2) at the concrete
failing input, `now` = 2024-01-01 00:00:00 and text `2099-01-01 00:00:00`,
the input parses to an instant strictly after `now` yet the state machine
stays in AwaitingStart without storing or replying; (3) `"now"` does advance
with the Immediate sentinel, as claimed. -/
theorem C1_start_explicit_date_dead_end :
    (∀ (now : DateTime) (text : String),
       StartResult.storedStart (schedule_first now text) = some none ∨
       StartResult.storedStart (schedule_first now text) = none) ∧
    awaitingStart (DateTime.mk 2024 1 1 0 0 0) "2099-01-01 00:00:00" =
      StartResult.stayWithoutReply ∧
    parseDateTime "2099-01-01 00:00:00" = some (DateTime.mk 2099 1 1 0 0 0) ∧
    (DateTime.mk 2024 1 1 0 0 0).code < (DateTime.mk 2099 1 1 0 0 0).code ∧
    awaitingStart (DateTime.mk 2024 1 1 0 0 0) "now" = StartResult.advance none := by
  refine ⟨?_, by decide, by decide, by decide, by decide⟩
  intro now text
  by_cases hnow : (pyLower text == "now") = true
  · left
    simp [schedule_first, hnow, StartResult.storedStart]
  · cases hp : parseDateTime text with
    | none =>
      right
      simp [schedule_first, hnow, hp, StartResult.storedStart]
    | some d =>
      by_cases hlt : d.code < now.code
      · right
        simp [schedule_first, hnow, hp, hlt, StartResult.storedStart]
      · right
        simp [schedule_first, hnow, hp, hlt, StartResult.storedStart]

/-! ### Claim C2 -/

/-- Claim C2 counterexample: canceling when no job with the parsed id exists
is not a no-op — the `[0]` index into the empty `get_jobs_by_name` result
raises an IndexError inside the handler. -/
theorem C2_cancel_missing_id_errors :
    handle_schedule_cancel [] "Schedule ID: 77_123.0\nCreated by: X" =
      Except.error PyError.indexError := by
  rfl

/-- Claim C2 as amended: when the replied-to text parses to a job id, the
handler removes the first registered job with that name; when no job with
that name exists (including a second cancel of an already removed job) the
handler raises an IndexError and no registry state changes — cancellation is
therefore not an error-free no-op on unknown ids. -/
theorem C2_cancel_behavior :
    ∀ (reg : List Job) (text jobName : String),
      parseScheduleId text = some jobName →
      (get_jobs_by_name reg jobName = [] →
        handle_schedule_cancel reg text = Except.error PyError.indexError) ∧
      (∀ (j : Job) (js : List Job), get_jobs_by_name reg jobName = j :: js →
        handle_schedule_cancel reg text = Except.ok (reg.erase j)) := by
  intro reg text jobName h
  constructor
  · intro hempty
    simp [handle_schedule_cancel, h, hempty]
  · intro j js hcons
    simp [handle_schedule_cancel, h, hcons]

/-- Witness for C2: a concrete cancel of an id that is not registered raises
the IndexError. -/
theorem C2_cancel_behavior_witness :
    handle_schedule_cancel [Job.mk "9_1.0"] "Schedule ID: 8_2.0\nx" =
      Except.error PyError.indexError :=
  (C2_cancel_behavior [Job.mk "9_1.0"] "Schedule ID: 8_2.0\nx" "8_2.0" (by decide)).1
    (by decide)

/-! ### Claim C3 -/

/-- Claim C3 counterexample: the job registered for chat 123 appears in the
listing for chat 12, because the listing matches on
`job.name.startswith(str(chat_id))` and the decimal form of 12 is a prefix of
the decimal form of 123. -/
theorem C3_prefix_collision :
    registeredJob 123 "1700000000.5" ∈
      get_scheduled_messages 12 [registeredJob 123 "1700000000.5"] := by
  decide

/-- Claim C3 as amended: the listing for chat C returns exactly the jobs
whose name begins with the decimal representation of C.  Every job registered
for C appears (its name is the decimal chat id followed by an underscore and
a timestamp), but a job of a different chat also appears whenever the decimal
form of C is a prefix of its name, as in the counterexample. -/
theorem C3_listing_behavior :
    (∀ (chat : Int) (reg : List Job) (j : Job),
       j ∈ get_scheduled_messages chat reg ↔
         j ∈ reg ∧ pyStartsWith j.name (toString chat) = true) ∧
    (∀ (chat : Int) (t : String),
       pyStartsWith (mkJobName chat t) (toString chat) = true) := by
  constructor
  · intro chat reg j
    simp [get_scheduled_messages, List.mem_filter]
  · intro chat t
    unfold pyStartsWith mkJobName
    rw [String.data_append, String.data_append, List.append_assoc]
    exact isPrefixOf_append_self _ _

/-- Witness for C3: a concrete job registered for chat 7 is returned by the
listing for chat 7. -/
theorem C3_listing_behavior_witness :
    registeredJob 7 "1.0" ∈ get_scheduled_messages 7 [registeredJob 7 "1.0"] :=
  (C3_listing_behavior.1 7 [registeredJob 7 "1.0"] (registeredJob 7 "1.0")).mpr
    ⟨by decide, C3_listing_behavior.2 7 "1.0"⟩

/-! ### Claim C4 -/

/-- Claim C4 counterexample: the input `"0"` passes the `^[0-9]+$` gate, so
`schedule_interval` runs, stores the non-positive interval 0 and advances the
conversation — contradicting the claim that only positive integers are
accepted and that `"0"` re-prompts. -/
theorem C4_zero_interval_accepted :
    awaitingInterval "0" = IntervalResult.accept 0 := by
  decide

/-- Claim C4 as amended: in AwaitingInterval exactly the inputs matching the
digit-run gate `^[0-9]+$` are accepted, and the stored value is their base-10
value — which may be 0, so a job can be registered with interval 0.
Non-matching input such as `"abc"` or `"-5"` never runs the handler: the
conversation remains in AwaitingInterval, though without an explicit
re-prompt message. -/
theorem C4_interval_behavior :
    (∀ (s : String) (n : Nat),
       awaitingInterval s = IntervalResult.accept n →
       intervalGate s = true ∧ n = natOfDigits (s.data.takeWhile Char.isDigit)) ∧
    awaitingInterval "abc" = IntervalResult.ignored ∧
    awaitingInterval "-5" = IntervalResult.ignored ∧
    awaitingInterval "0" = IntervalResult.accept 0 := by
  refine ⟨?_, by decide, by decide, by decide⟩
  intro s n h
  unfold awaitingInterval at h
  split at h
  · rename_i hg
    injection h with h2
    exact ⟨hg, h2.symm⟩
  · simp at h

/-- Witness for C4: the accepted input `"60"` satisfies the gate and stores
its numeric value. -/
theorem C4_interval_behavior_witness :
    intervalGate "60" = true ∧ 60 = natOfDigits ("60".data.takeWhile Char.isDigit) :=
  C4_interval_behavior.1 "60" 60 (by decide)

/-! ### Claim C5 -/

/-- Claim C5 counterexample: an explicit end exactly equal to the explicit
start is accepted (the code only rejects `end < start`), so the conversation
finishes and registers a job with `end = start`, where the claim demands a
re-prompt. -/
theorem C5_end_equal_start_accepted :
    awaitingEnd (DateTime.mk 2025 1 1 0 0 0) (some (DateTime.mk 2025 6 1 12 0 0))
        "2025-06-01 12:00:00" =
      EndResult.finish (some (DateTime.mk 2025 6 1 12 0 0)) ∧
    parseDateTime "2025-06-01 12:00:00" = some (DateTime.mk 2025 6 1 12 0 0) := by
  exact ⟨by decide, by decide⟩

/-- Claim C5 as amended: an accepted explicit end is never strictly before
the effective start (the current instant when start is Immediate, else the
explicit start), i.e. every emitted spec with explicit end satisfies
`end ≥ effective start` — equality included, so `end > start` does not hold in
general.  An end strictly before the explicit start does re-prompt and stays
in AwaitingEnd, as the concrete second conjunct shows. -/
theorem C5_end_not_before_start :
    (∀ (now : DateTime) (first : Option DateTime) (text : String) (d : DateTime),
       awaitingEnd now first text = EndResult.finish (some d) →
       (effectiveStart now first).code ≤ d.code) ∧
    awaitingEnd (DateTime.mk 2025 1 1 0 0 0) (some (DateTime.mk 2025 6 1 12 0 0))
        "2025-05-31 23:59:59" = EndResult.stayBeforeStartReply := by
  refine ⟨?_, by decide⟩
  intro now first text d h
  by_cases hg : lastGate text = true
  case neg => simp [awaitingEnd, hg] at h
  case pos =>
    by_cases hnever : (pyLower text == "never") = true
    · simp [awaitingEnd, schedule_last, hg, hnever] at h
    · cases hp : parseDateTime text with
      | none => simp [awaitingEnd, schedule_last, hg, hnever, hp] at h
      | some e =>
        cases first with
        | none =>
          by_cases hlt : e.code < now.code
          · simp [awaitingEnd, schedule_last, hg, hnever, hp, hlt] at h
          · simp [awaitingEnd, schedule_last, hg, hnever, hp, hlt] at h
            subst h
            simp only [effectiveStart, Option.getD]
            omega
        | some f =>
          by_cases hlt : e.code < f.code
          · simp [awaitingEnd, schedule_last, hg, hnever, hp, hlt] at h
          · simp [awaitingEnd, schedule_last, hg, hnever, hp, hlt] at h
            subst h
            simp only [effectiveStart, Option.getD]
            omega

/-- Witness for C5: a concrete accepted end with Immediate start is at or
after the effective start. -/
theorem C5_end_not_before_start_witness :
    (effectiveStart (DateTime.mk 2025 1 1 0 0 0) none).code ≤
      (DateTime.mk 2025 2 2 0 0 0).code :=
  C5_end_not_before_start.1 (DateTime.mk 2025 1 1 0 0 0) none "2025-02-02 00:00:00"
    (DateTime.mk 2025 2 2 0 0 0) (by decide)

/-! ### Claim C6 -/

/-- Claim C6 counterexample: a cancel reply whose replied-to message lacks
the `Schedule ID: ` prefix is not silently ignored — `re.search` returns
`None` and `.group(1)` raises an AttributeError inside the handler. -/
theorem C6_malformed_reply_errors :
    handle_schedule_cancel [Job.mk "7_9.0"] "Hello Respected Sir" =
      Except.error PyError.attributeError := by
  rfl

/-- Claim C6 as amended: whenever the replied-to text does not match the
`^Schedule ID: ([^\s]+)\s` convention, the handler raises an AttributeError
(caught by the dispatcher); no job is canceled and no registry state changes,
because the exception precedes any mutation, but the reply is not silently
ignored. -/
theorem C6_malformed_reply_behavior :
    ∀ (reg : List Job) (text : String),
      parseScheduleId text = none →
      handle_schedule_cancel reg text = Except.error PyError.attributeError := by
  intro reg text h
  simp [handle_schedule_cancel, h]

/-- Witness for C6: a concrete malformed replied-to text raises the
AttributeError. -/
theorem C6_malformed_reply_behavior_witness :
    handle_schedule_cancel [Job.mk "1_2.0"] "cancel pls" =
      Except.error PyError.attributeError :=
  C6_malformed_reply_behavior [Job.mk "1_2.0"] "cancel pls" (by decide)

/-! ### Claim C7 -/

/-- Claim C7 (code bug): `greet` initializes `retries = 0` and loops
`while not greeting_made and retries <= 3`, but — unlike its scheduled twin
`schedule_callback` — never increments `retries` on failure.  Under an oracle
on which every attempt fails, the loop state is unchanged after any number of
iterations and the guard stays true, so the loop never terminates and the
user-visible failure message is unreachable; the scheduled twin stops with a
false guard after exactly 4 failed attempts. -/
theorem C7_greet_retry_unbounded :
    (∀ n : Nat, greetIter (fun _ => false) n = GreetState.mk false 0) ∧
    greetGuard (GreetState.mk false 0) = true ∧
    scheduleIter (fun _ => false) 4 = GreetState.mk false 4 ∧
    greetGuard (GreetState.mk false 4) = false := by
  refine ⟨?_, by decide, by decide, by decide⟩
  intro n
  induction n with
  | zero => rfl
  | succ n ih => simp [greetIter, ih, greetGuard, greetBody]

/-! ### Claim C8 -/

/-- Claim C8 counterexample: `get_random_quote` has no retry bound — under an
oracle that always returns a quote failing the content filter, no amount of
fuel makes the loop return, i.e. the Python `while quote == ""` loop runs
forever instead of terminating after a bounded number of attempts. -/
theorem C8_quote_loop_no_bound :
    (∃ fuel q, get_random_quote (fun _ => FetchResult.ok "I cannot stop") fuel 0 =
      some q) ↔ False := by
  constructor
  · rintro ⟨fuel, q, h⟩
    rw [grq_exhausts (fun _ => FetchResult.ok "I cannot stop")
      (fun j => (by decide : loopBodyResult (FetchResult.ok "I cannot stop") = none))
      fuel 0] at h
    cases h
  · intro h
    cases h

/-- Claim C8 as amended: the fetch loop retries with no bound at all — it
terminates (for some fuel) exactly when some attempt of the oracle yields a
decodable quote that passes the content filter and is nonempty; when no
attempt ever does, it loops indefinitely. -/
theorem C8_quote_loop_termination_iff :
    ∀ oracle : Nat → FetchResult,
      (∃ fuel, (get_random_quote oracle fuel 0).isSome = true) ↔
      (∃ j, attemptSucceeds oracle j = true) := by
  intro oracle
  constructor
  · rintro ⟨fuel, h⟩
    obtain ⟨j, _, hs⟩ := grq_some_attempt oracle fuel 0 h
    exact ⟨j, hs⟩
  · rintro ⟨j, hs⟩
    exact ⟨j + 1, grq_attempt_reached oracle (j + 1) 0 j (Nat.zero_le j) (by omega) hs⟩

/-- Witness for C8: under an oracle whose first attempt yields a passing
quote the loop terminates, hence that attempt succeeds. -/
theorem C8_quote_loop_termination_iff_witness :
    ∃ j, attemptSucceeds (fun _ => FetchResult.ok "Seize the day") j = true :=
  (C8_quote_loop_termination_iff (fun _ => FetchResult.ok "Seize the day")).mp
    ⟨1, by decide⟩

/-! ### Claim C9 -/

/-- Claim C9 (confirmed): a countdown ticket started at `time_left = 14`,
never canceled, performs exactly the rewrites with footers counting strictly
down 14, 13, …, 1 followed by the no-footer frozen rewrite, and retires
(`removed`, so no further invocations).  If it is marked canceled after tick
`k` for any `0 < k ≤ 14`, then any positive number of further seconds yields
exactly one rewrite, the cancelled footer, after which the ticket is retired.
A retired ticket is never invoked again and marking it canceled is a no-op,
so the cancelled rewrite can neither fire twice nor hit a retired ticket. -/
theorem C9_countdown_behavior :
    runTicket 15 (Ticket.mk (some 14) false) =
      (Ticket.mk (some 0) true, fullCountdownEdits) ∧
    (∀ k : Nat, 0 < k → k ≤ 14 → ∀ m : Nat, 1 ≤ m →
      runTicket m (markCancelled (runTicket k (Ticket.mk (some 14) false)).1) =
        (Ticket.mk none true, [Edit.cancelled])) ∧
    (∀ (m : Nat) (t : Ticket), t.removed = true →
      runTicket m t = (t, []) ∧ markCancelled t = t) := by
  refine ⟨by decide, ?_, ?_⟩
  · intro k hk1 hk2 m hm
    have hmark : markCancelled (runTicket k (Ticket.mk (some 14) false)).1 =
        Ticket.mk none false := by
      interval_cases k <;> decide
    rw [hmark]
    exact runTicket_cancelFlag m hm
  · intro m t ht
    exact ⟨runTicket_removed m t ht, by simp [markCancelled, ht]⟩

/-- Witness for C9: cancellation after 7 ticks produces exactly the one
cancelled rewrite, and a retired ticket is inert. -/
theorem C9_countdown_behavior_witness :
    runTicket 15 (markCancelled (runTicket 7 (Ticket.mk (some 14) false)).1) =
      (Ticket.mk none true, [Edit.cancelled]) ∧
    runTicket 9 (Ticket.mk (some 3) true) = (Ticket.mk (some 3) true, []) ∧
    markCancelled (Ticket.mk (some 3) true) = Ticket.mk (some 3) true := by
  refine ⟨C9_countdown_behavior.2.1 7 (by decide) (by decide) 15 (by decide), ?_, ?_⟩
  · exact (C9_countdown_behavior.2.2 9 (Ticket.mk (some 3) true) rfl).1
  · exact (C9_countdown_behavior.2.2 9 (Ticket.mk (some 3) true) rfl).2

/-! ### Claim C10 -/

/-- Claim C10 (confirmed): whenever `get_random_quote` returns a quote — for
any oracle, fuel and start index — that quote satisfies the content filter:
neither the case-sensitive `\bI\b` nor the case-insensitive `\bm[ey]\b`
blacklisted pattern occurs in it. -/
theorem C10_returned_quote_passes_filter :
    ∀ (oracle : Nat → FetchResult) (fuel i : Nat) (q : String),
      get_random_quote oracle fuel i = some q →
      contains_no_blacklisted_regexes q = true := by
  intro oracle fuel
  induction fuel with
  | zero => intro i q h; simp [get_random_quote] at h
  | succ fuel ih =>
    intro i q h
    unfold get_random_quote at h
    cases hA : loopBodyResult (oracle i) with
    | some t =>
      simp only [hA] at h
      injection h with h2
      subst h2
      exact loopBodyResult_passes (oracle i) _ hA
    | none =>
      simp only [hA] at h
      exact ih (i + 1) q h

/-- Witness for C10: a concrete run returns a quote and that quote passes the
filter. -/
theorem C10_returned_quote_passes_filter_witness :
    contains_no_blacklisted_regexes "Stay curious" = true :=
  C10_returned_quote_passes_filter (fun _ => FetchResult.ok "Stay curious") 1 0
    "Stay curious" (by decide)
